import Mathlib

/-!
# Verification of the Ping API core (`src/main.py`, `src/database.py`)

A shallow embedding of the `/ping` endpoint of the Ping API repository:
the view-counter store (a SQLite `users` table addressed through an
atomic `INSERT ... ON CONFLICT DO UPDATE` upsert), the handler `ping`
with its user-id and timezone validation, and the time formatting via
`strftime("%Y-%m-%d %H:%M:%S %Z")`.

Timestamps are modelled as natural numbers (seconds since the Unix
epoch); the wall clock is passed in explicitly.  The IANA timezone
database is modelled as a lookup function `String → Option Zone`, since
`ZoneInfo(name)` succeeds exactly when `name` is a key of the external
tzdata database.
-/

/-- Python whitespace as recognised by `str.strip()` (CPython
`Py_UNICODE_ISSPACE`): ASCII `\t \n \v \f \r` and space, the file/group/
record/unit separators `\x1c`–`\x1f`, NEL (`\x85`), NBSP (`\xa0`), and
the Unicode space/line/paragraph separators. -/
def isPyWs (c : Char) : Bool :=
  let n := c.toNat
  n = 0x20 || (0x09 ≤ n && n ≤ 0x0d) || (0x1c ≤ n && n ≤ 0x1f) ||
    n = 0x85 || n = 0xa0 || n = 0x1680 || (0x2000 ≤ n && n ≤ 0x200a) ||
    n = 0x2028 || n = 0x2029 || n = 0x202f || n = 0x205f || n = 0x3000

/-- Embedding of Python `str.strip()`: remove leading and trailing whitespace. -/
def pyStrip (s : String) : String :=
  String.mk (((s.data.dropWhile isPyWs).reverse.dropWhile isPyWs).reverse)

/-- A row of the `users` table (`src/database.py`, class `User`):
view counter plus creation and last-update timestamps (UTC seconds). -/
structure UserRec where
  views : Nat
  created_at : Nat
  updated_at : Nat
  deriving Repr, DecidableEq

/-- The `users` table: an association list keyed by the primary key `id`.
The primary-key constraint makes keys unique; `upsertIncrement` and
`storeFind` preserve and use that discipline. -/
abbrev Store := List (String × UserRec)

/-- `SELECT * FROM users WHERE id = k` (first match — the key is primary). -/
def storeFind : Store → String → Option UserRec
  | [], _ => none
  | (k2, rec) :: rest, k => if k2 = k then some rec else storeFind rest k

/-- The atomic upsert of `src/main.py`:
`INSERT INTO users (id, views, created_at, updated_at) VALUES (:user_id, 1, :now, :now)
ON CONFLICT(id) DO UPDATE SET views = users.views + 1, updated_at = :now`. -/
def upsertIncrement : Store → String → Nat → Store
  | [], k, now => [(k, ⟨1, now, now⟩)]
  | (k2, rec) :: rest, k, now =>
    if k2 = k then
      (k2, { rec with views := rec.views + 1, updated_at := now }) :: rest
    else
      (k2, rec) :: upsertIncrement rest k now

/-- A validated timezone: IANA name, offset east of UTC in seconds, and the
abbreviation that `%Z` renders for it. -/
structure Zone where
  name : String
  offset : Int
  abbr : String
  deriving Repr, DecidableEq

/-- The JSON body of an HTTP error response (`HTTPException`): status code
and `detail` string. -/
structure HttpError where
  status : Nat
  detail : String
  deriving Repr, DecidableEq

/-- The success body (`PingResponse` in `src/main.py`). -/
structure PingResponse where
  message : String
  views : Nat
  updated_at : String
  deriving Repr, DecidableEq

/-- Two-digit zero padding, as in `strftime` fields `%m %d %H %M %S`. -/
def pad2 (n : Nat) : String :=
  if n < 10 then "0" ++ toString n else toString n

/-- Civil date from a count of days since 1970-01-01 (proleptic Gregorian),
the standard days-to-civil algorithm used by datetime libraries. -/
def civilFromDays (z0 : Int) : Int × Int × Int :=
  let z := z0 + 719468
  let era : Int := (if 0 ≤ z then z else z - 146096) / 146097
  let doe : Int := z - era * 146097
  let yoe : Int := (doe - doe / 1460 + doe / 36524 - doe / 146096) / 365
  let y : Int := yoe + era * 400
  let doy : Int := doe - (365 * yoe + yoe / 4 - yoe / 100)
  let mp : Int := (5 * doy + 2) / 153
  let d : Int := doy - (153 * mp + 2) / 5 + 1
  let m : Int := mp + (if mp < 10 then 3 else -9)
  (y + (if m ≤ 2 then 1 else 0), m, d)

/-- Wall-clock fields `(year, month, day, hour, minute, second)` of a UTC
instant viewed in zone `z` (the zone is a fixed offset east of UTC). -/
def wallClock (t : Int) (z : Zone) : Nat × Nat × Nat × Nat × Nat × Nat :=
  let loc := t + z.offset
  let days := loc.fdiv 86400
  let secs := (loc.fmod 86400).toNat
  let (y, m, d) := civilFromDays days
  (y.toNat, m.toNat, d.toNat, secs / 3600, secs % 3600 / 60, secs % 60)

/-- Embedding of `datetime.strftime("%Y-%m-%d %H:%M:%S %Z")` applied to the
instant `t` converted into zone `z` (`src/main.py`, response formatting). -/
def formatTime (t : Int) (z : Zone) : String :=
  let (y, m, d, h, mi, s) := wallClock t z
  toString y ++ "-" ++ pad2 m ++ "-" ++ pad2 d ++ " " ++
    pad2 h ++ ":" ++ pad2 mi ++ ":" ++ pad2 s ++ " " ++ z.abbr

/-- The 400 error raised for a missing or empty `X-User-Id`
(`src/main.py`, first `HTTPException`). -/
def uidRequiredError : HttpError :=
  ⟨400, "X-User-Id header is required and cannot be empty."⟩

/-- The detail string of the 400 error raised for an unknown timezone
(`src/main.py`, second `HTTPException`, an f-string interpolating the
offending input). -/
def tzErrDetail (t : String) : String :=
  "Invalid timezone: \x27" ++ t ++
    "\x27. Use IANA format (e.g., America/New_York, Europe/London)."

/-- The `/ping` handler body (`src/main.py`, function `ping`), after FastAPI
has extracted the two headers.  `tzdb` models the external IANA timezone
database consulted by `ZoneInfo`.  The handler performs two separate
store round-trips: `execOk` models whether the SQL `execute`/`commit` of
the upsert succeeds (a failure raises before anything is committed, so
it surfaces as a 500 with no visible mutation), and `selectOk` models
whether the subsequent `SELECT` of the row succeeds (a failure there
also surfaces as a 500, but only after the increment has committed).
`nowUtc` is the single `datetime.now(timezone.utc)` reading used for the
upsert; `nowResp` is the later `datetime.now(tz)` reading used for the
response message.  Returns the HTTP outcome and the resulting store. -/
def ping (tzdb : String → Option Zone) (execOk selectOk : Bool) (db : Store)
    (nowUtc nowResp : Nat) (x_user_id x_timezone : String) :
    Except HttpError PingResponse × Store :=
  if x_user_id = "" ∨ pyStrip x_user_id = "" then
    (Except.error uidRequiredError, db)
  else
    let uid := pyStrip x_user_id
    let tzName := if x_timezone = "" then "UTC" else x_timezone
    match tzdb tzName with
    | none =>
      (Except.error ⟨400, tzErrDetail tzName⟩, db)
    | some tz =>
      if execOk then
        let db2 := upsertIncrement db uid nowUtc
        if selectOk then
          match storeFind db2 uid with
          | some user =>
            (Except.ok
              { message := "Pong @ " ++ formatTime nowResp tz,
                views := user.views,
                updated_at := formatTime (Int.ofNat user.updated_at) tz }, db2)
          | none => (Except.error ⟨500, "Internal Server Error"⟩, db2)
        else
          (Except.error ⟨500, "Internal Server Error"⟩, db2)
      else
        (Except.error ⟨500, "Internal Server Error"⟩, db)

/-- Modelled from the spec: FastAPI framework-level header validation, which
is not part of `src/` (spec section 6: a structurally absent required
header is rejected with 422 before the handler runs, and an absent
`X-Timezone` takes the declared default `"UTC"`).  `src/test_main.py`
asserts the 422 behaviour. -/
def route (tzdb : String → Option Zone) (execOk selectOk : Bool) (db : Store)
    (nowUtc nowResp : Nat) (userHdr tzHdr : Option String) :
    Except HttpError PingResponse × Store :=
  match userHdr with
  | none => (Except.error ⟨422, "Field required"⟩, db)
  | some uid => ping tzdb execOk selectOk db nowUtc nowResp uid (tzHdr.getD "UTC")

/-- The UTC zone as `ZoneInfo("UTC")` resolves it. -/
def utcZone : Zone := ⟨"UTC", 0, "UTC"⟩

/-- `ZoneInfo("Asia/Tokyo")`: UTC+9, abbreviation JST. -/
def tokyoZone : Zone := ⟨"Asia/Tokyo", 9 * 3600, "JST"⟩

/-- Modelled from the spec: a small concrete fragment of the external IANA
timezone database (glossary: a named entry in the standard tz database),
used to instantiate `tzdb` in witnesses; whitespace-only strings are not
IANA names. -/
def ianaDb (s : String) : Option Zone :=
  if s = "UTC" then some utcZone
  else if s = "Asia/Tokyo" then some tokyoZone
  else none

/-- The effect of the SQL upsert on the addressed row: insert with views 1
and both timestamps `now`, or increment and touch `updated_at`. -/
def bump (now : Nat) : Option UserRec → UserRec
  | none => ⟨1, now, now⟩
  | some r => { r with views := r.views + 1, updated_at := now }

/-- The view count currently stored for a key (0 when absent). -/
def viewsOf (db : Store) (k : String) : Nat :=
  match storeFind db k with
  | none => 0
  | some r => r.views

/-- `isPreL n l`: the char list `n` starts the char list `l`. -/
def isPreL : List Char → List Char → Bool
  | [], _ => true
  | _ :: _, [] => false
  | a :: as, b :: bs => a = b && isPreL as bs

/-- Naive substring search on char lists. -/
def containsSub (needle : List Char) : List Char → Bool
  | [] => needle.isEmpty
  | c :: rest => isPreL needle (c :: rest) || containsSub needle rest

/-- `strContains hay needle`: `needle` occurs as a contiguous substring of
`hay` (Python `needle in hay`). -/
def strContains (hay needle : String) : Bool :=
  containsSub needle.data hay.data

/-- The two store interactions a single `/ping` request performs, in program
order (`src/main.py`): first the atomic upsert-increment with its commit,
then a separate `SELECT` of the row to obtain the `views` value returned
to the caller.  `i` names the concurrent request the action belongs to. -/
inductive Act where
  | up (i : Nat)
  | sel (i : Nat)
  deriving Repr, DecidableEq

/-- The request an action belongs to. -/
def actReq : Act → Nat
  | Act.up i => i
  | Act.sel i => i

/-- State of a concurrent run for one contended user id: the store, plus
the `views` value each completed `SELECT` observed (returned to that
request's caller), in completion order. -/
structure ConcState where
  db : Store
  results : List (Nat × Option Nat)
  deriving Repr, DecidableEq

/-- Execute one atomic store interaction of request `i` for user `uid`:
the upsert commits an increment; the select reads the row's current
`views`, which is what the request returns. -/
def execAct (uid : String) (now : Nat) (s : ConcState) : Act → ConcState
  | Act.up _ => { s with db := upsertIncrement s.db uid now }
  | Act.sel i =>
    { s with results := s.results ++ [(i, (storeFind s.db uid).map UserRec.views)] }

/-- Run an interleaving (schedule) of store interactions against `db`. -/
def execSched (uid : String) (now : Nat) (db : Store) (sched : List Act) : ConcState :=
  sched.foldl (execAct uid now) ⟨db, []⟩

/-- `sched` is an interleaving of `K` concurrent requests: restricted to any
request `i < K` it is exactly that request's program order (upsert, then
select), and no other request occurs. -/
def validSched (K : Nat) (sched : List Act) : Prop :=
  (∀ i < K, sched.filter (fun a => actReq a = i) = [Act.up i, Act.sel i]) ∧
  ∀ a ∈ sched, actReq a < K

/-- The store after `n` sequential (non-concurrent) `/ping` requests for
user id `uid` with the default timezone header, starting from `db0`;
call number `k` reads the clock as `times k`. -/
def runSeqStore (tzdb : String → Option Zone) (times : Nat → Nat × Nat)
    (uid : String) (db0 : Store) : Nat → Store
  | 0 => db0
  | n + 1 =>
    (ping tzdb true true (runSeqStore tzdb times uid db0 n)
      (times n).1 (times n).2 uid "UTC").snd

/-- The response of the `(n+1)`-st sequential request. -/
def seqResponse (tzdb : String → Option Zone) (times : Nat → Nat × Nat)
    (uid : String) (db0 : Store) (n : Nat) : Except HttpError PingResponse :=
  (ping tzdb true true (runSeqStore tzdb times uid db0 n)
    (times n).1 (times n).2 uid "UTC").fst

instance (K : Nat) (sched : List Act) : Decidable (validSched K sched) := by
  unfold validSched
  infer_instance

/-- Every record of `s` satisfies the data-model invariant and carries no
timestamp beyond `t`. -/
def StoreInvBound (s : Store) (t : Nat) : Prop :=
  ∀ p ∈ s, p.2.created_at ≤ p.2.updated_at ∧ p.2.updated_at ≤ t

/-- Store states reachable from the fresh (empty) database by `/ping`
requests whose `datetime.now(timezone.utc)` readings never decrease
(physical time moves forward); `t` is the latest clock reading. -/
inductive Reachable (tzdb : String → Option Zone) : Store → Nat → Prop where
  | init : Reachable tzdb [] 0
  | step (s : Store) (t : Nat) (ok1 ok2 : Bool) (nowUtc nowResp : Nat)
      (uid tzh : String) :
      Reachable tzdb s t → t ≤ nowUtc →
      Reachable tzdb (ping tzdb ok1 ok2 s nowUtc nowResp uid tzh).snd nowUtc

/-- Interpret a run of decimal digit characters as a number. -/
def digitsToNat? (l : List Char) : Option Nat :=
  if l ≠ [] ∧ l.all Char.isDigit then
    some (l.foldl (fun n c => n * 10 + (c.toNat - 48)) 0)
  else none

/-- Split a character list on a separator character. -/
def splitOnChar (sep : Char) : List Char → List (List Char)
  | [] => [[]]
  | c :: rest =>
    let r := splitOnChar sep rest
    if c = sep then [] :: r
    else
      match r with
      | [] => [[c]]
      | h :: t => (c :: h) :: t

/-- Parse a displayed `YYYY-MM-DD HH:MM:SS <zone-abbreviation>` string back
into wall-clock fields, the re-parsing direction of the round-trip
property (ignores the trailing abbreviation). -/
def parseWall (s : String) : Option (Nat × Nat × Nat × Nat × Nat × Nat) :=
  match splitOnChar ' ' s.data with
  | date :: time :: _ =>
    match splitOnChar '-' date, splitOnChar ':' time with
    | [y, m, d], [h, mi, sec] =>
      match digitsToNat? y, digitsToNat? m, digitsToNat? d,
          digitsToNat? h, digitsToNat? mi, digitsToNat? sec with
      | some yn, some mn, some dn, some hn, some minn, some sn =>
        some (yn, mn, dn, hn, minn, sn)
      | _, _, _, _, _, _ => none
    | _, _ => none
  | _ => none

theorem storeFind_upsertIncrement_self (db : Store) (k : String) (now : Nat) :
    storeFind (upsertIncrement db k now) k = some (bump now (storeFind db k)) := by
  induction db with
  | nil => simp [upsertIncrement, storeFind, bump]
  | cons p rest ih =>
    obtain ⟨k2, rec⟩ := p
    by_cases h : k2 = k
    · simp [upsertIncrement, h, storeFind, bump]
    · simp [upsertIncrement, h, storeFind, ih]

theorem storeFind_upsertIncrement_ne (db : Store) (k k2 : String) (now : Nat)
    (h : k2 ≠ k) :
    storeFind (upsertIncrement db k now) k2 = storeFind db k2 := by
  induction db with
  | nil => simp [upsertIncrement, storeFind, Ne.symm h]
  | cons p rest ih =>
    obtain ⟨k3, rec⟩ := p
    by_cases h3 : k3 = k
    · subst h3
      simp [upsertIncrement, storeFind, Ne.symm h]
    · by_cases h2 : k3 = k2 <;> simp [upsertIncrement, storeFind, h3, h2, h, ih]

theorem views_bump (now : Nat) (o : Option UserRec) :
    (bump now o).views = (match o with | none => 0 | some r => r.views) + 1 := by
  cases o <;> simp [bump]

theorem isPreL_append (n t : List Char) : isPreL n (n ++ t) = true := by
  induction n with
  | nil => simp [isPreL]
  | cons a as ih => simp [isPreL, ih]

theorem containsSub_of_isPreL (n l : List Char) (h : isPreL n l = true) :
    containsSub n l = true := by
  cases l with
  | nil => cases n with
    | nil => simp [containsSub, List.isEmpty]
    | cons a as => simp [isPreL] at h
  | cons c rest => simp [containsSub, h]

theorem containsSub_append_left (n pre l : List Char)
    (h : containsSub n l = true) : containsSub n (pre ++ l) = true := by
  induction pre with
  | nil => simpa using h
  | cons c cs ih => simp [containsSub, ih]

theorem containsSub_sandwich (n pre post : List Char) :
    containsSub n (pre ++ (n ++ post)) = true :=
  containsSub_append_left n pre (n ++ post)
    (containsSub_of_isPreL n (n ++ post) (isPreL_append n post))

theorem pyStrip_data (s : String) :
    (pyStrip s).data = (s.data.dropWhile isPyWs).rdropWhile isPyWs := rfl

theorem pyStrip_eq_empty_iff (s : String) :
    pyStrip s = "" ↔ ∀ c ∈ s.data, isPyWs c = true := by
  rw [String.ext_iff, pyStrip_data]
  show _ = ([] : List Char) ↔ _
  rw [List.rdropWhile_eq_nil_iff]
  constructor
  · intro h c hc
    have hsplit := List.takeWhile_append_dropWhile (p := isPyWs) (l := s.data)
    rw [← hsplit] at hc
    rcases List.mem_append.mp hc with h1 | h2
    · exact List.mem_takeWhile_imp h1
    · exact h c h2
  · intro h c hc
    exact h c ((List.dropWhile_sublist isPyWs).subset hc)

theorem dropWhile_rdropWhile_dropWhile (p : Char → Bool) (l : List Char) :
    ((l.dropWhile p).rdropWhile p).dropWhile p = (l.dropWhile p).rdropWhile p := by
  cases h : (l.dropWhile p).rdropWhile p with
  | nil => simp
  | cons a r2 =>
    obtain ⟨t, ht⟩ := List.rdropWhile_prefix (p := p) (l := l.dropWhile p)
    rw [h] at ht
    have hpa : p a = false := by
      have h2 := List.head?_dropWhile_not p l
      rw [← ht] at h2
      simpa using h2
    simp [List.dropWhile_cons, hpa]

theorem pyStrip_idem (s : String) : pyStrip (pyStrip s) = pyStrip s := by
  rw [String.ext_iff, pyStrip_data, pyStrip_data,
    dropWhile_rdropWhile_dropWhile, List.rdropWhile_idempotent]

theorem pyStrip_ne_empty (s : String) (h : ∃ c ∈ s.data, ¬ isPyWs c = true) :
    pyStrip s ≠ "" := by
  intro he
  obtain ⟨c, hc, hw⟩ := h
  exact hw (pyStrip_eq_empty_iff s |>.mp he c hc)

theorem ne_empty_of_mem (s : String) (c : Char) (hc : c ∈ s.data) : s ≠ "" := by
  intro he
  rw [he] at hc
  simp at hc

theorem bump_updated_at (now : Nat) (o : Option UserRec) :
    (bump now o).updated_at = now := by
  cases o <;> rfl

theorem pyStrip_empty : pyStrip "" = "" := rfl

theorem ne_empty_of_pyStrip_ne_empty (s : String) (h : pyStrip s ≠ "") :
    s ≠ "" := by
  intro h0
  rw [h0] at h
  exact h pyStrip_empty

theorem ping_uid_missing (tzdb : String → Option Zone) (ok1 ok2 : Bool) (db : Store)
    (n1 n2 : Nat) (uid tzh : String) (h : pyStrip uid = "") :
    ping tzdb ok1 ok2 db n1 n2 uid tzh = (Except.error uidRequiredError, db) := by
  simp [ping, h]

theorem ping_bad_tz (tzdb : String → Option Zone) (ok1 ok2 : Bool) (db : Store)
    (n1 n2 : Nat) (uid tzh : String) (hu : pyStrip uid ≠ "")
    (hz : tzdb (if tzh = "" then "UTC" else tzh) = none) :
    ping tzdb ok1 ok2 db n1 n2 uid tzh =
      (Except.error ⟨400, tzErrDetail (if tzh = "" then "UTC" else tzh)⟩, db) := by
  simp [ping, ne_empty_of_pyStrip_ne_empty uid hu, hu, hz]

theorem ping_exec_down (tzdb : String → Option Zone) (ok2 : Bool) (db : Store)
    (n1 n2 : Nat) (uid tzh : String) (z : Zone) (hu : pyStrip uid ≠ "")
    (hz : tzdb (if tzh = "" then "UTC" else tzh) = some z) :
    ping tzdb false ok2 db n1 n2 uid tzh =
      (Except.error ⟨500, "Internal Server Error"⟩, db) := by
  simp [ping, ne_empty_of_pyStrip_ne_empty uid hu, hu, hz]

theorem ping_select_down (tzdb : String → Option Zone) (db : Store)
    (n1 n2 : Nat) (uid tzh : String) (z : Zone) (hu : pyStrip uid ≠ "")
    (hz : tzdb (if tzh = "" then "UTC" else tzh) = some z) :
    ping tzdb true false db n1 n2 uid tzh =
      (Except.error ⟨500, "Internal Server Error"⟩,
        upsertIncrement db (pyStrip uid) n1) := by
  simp [ping, ne_empty_of_pyStrip_ne_empty uid hu, hu, hz]

theorem ping_valid (tzdb : String → Option Zone) (db : Store)
    (n1 n2 : Nat) (uid tzh : String) (z : Zone) (hu : pyStrip uid ≠ "")
    (hz : tzdb (if tzh = "" then "UTC" else tzh) = some z) :
    ping tzdb true true db n1 n2 uid tzh =
      (Except.ok
        { message := "Pong @ " ++ formatTime n2 z,
          views := viewsOf db (pyStrip uid) + 1,
          updated_at := formatTime (Int.ofNat n1) z },
        upsertIncrement db (pyStrip uid) n1) := by
  simp [ping, ne_empty_of_pyStrip_ne_empty uid hu, hu, hz,
    storeFind_upsertIncrement_self, views_bump, bump_updated_at, viewsOf]

theorem viewsOf_upsertIncrement_self (db : Store) (k : String) (now : Nat) :
    viewsOf (upsertIncrement db k now) k = viewsOf db k + 1 := by
  cases h : storeFind db k with
  | none => simp [viewsOf, storeFind_upsertIncrement_self, h, bump]
  | some r => simp [viewsOf, storeFind_upsertIncrement_self, h, bump]

theorem ping_snd_cases (tzdb : String → Option Zone) (ok1 ok2 : Bool) (db : Store)
    (n1 n2 : Nat) (uid tzh : String) :
    (ping tzdb ok1 ok2 db n1 n2 uid tzh).snd = db ∨
    (ping tzdb ok1 ok2 db n1 n2 uid tzh).snd = upsertIncrement db (pyStrip uid) n1 := by
  by_cases h1 : pyStrip uid = ""
  · left
    rw [ping_uid_missing tzdb ok1 ok2 db n1 n2 uid tzh h1]
  · cases hz : tzdb (if tzh = "" then "UTC" else tzh) with
    | none =>
      left
      rw [ping_bad_tz tzdb ok1 ok2 db n1 n2 uid tzh h1 hz]
    | some z =>
      cases ok1 with
      | false =>
        left
        rw [ping_exec_down tzdb ok2 db n1 n2 uid tzh z h1 hz]
      | true =>
        cases ok2 with
        | false =>
          right
          rw [ping_select_down tzdb db n1 n2 uid tzh z h1 hz]
        | true =>
          right
          rw [ping_valid tzdb db n1 n2 uid tzh z h1 hz]

theorem storeInvBound_mono (s : Store) (t t2 : Nat) (h : StoreInvBound s t)
    (hle : t ≤ t2) : StoreInvBound s t2 :=
  fun p hp => ⟨(h p hp).1, le_trans (h p hp).2 hle⟩

theorem upsertIncrement_preserves_inv (db : Store) (k : String) (now t : Nat)
    (h : StoreInvBound db t) (ht : t ≤ now) :
    StoreInvBound (upsertIncrement db k now) now := by
  induction db with
  | nil =>
    intro p hp
    simp [upsertIncrement] at hp
    simp [hp]
  | cons q rest ih =>
    obtain ⟨k2, rec⟩ := q
    have hq := h (k2, rec) (by simp)
    have hrest : StoreInvBound rest t := fun p hp => h p (List.mem_cons_of_mem _ hp)
    by_cases hk : k2 = k
    · intro p hp
      rw [upsertIncrement, if_pos hk] at hp
      rcases List.mem_cons.mp hp with he | hm
      · subst he
        exact ⟨le_trans hq.1 (le_trans hq.2 ht), le_refl now⟩
      · exact storeInvBound_mono rest t now hrest ht p hm
    · intro p hp
      rw [upsertIncrement, if_neg hk] at hp
      rcases List.mem_cons.mp hp with he | hm
      · subst he
        exact ⟨hq.1, le_trans hq.2 ht⟩
      · exact ih hrest p hm

theorem reachable_inv (tzdb : String → Option Zone) (s : Store) (t : Nat)
    (h : Reachable tzdb s t) : StoreInvBound s t := by
  induction h with
  | init => intro p hp; simp at hp
  | step s t ok1 ok2 n1 n2 uid tzh hr hle ih =>
    rcases ping_snd_cases tzdb ok1 ok2 s n1 n2 uid tzh with he | he <;> rw [he]
    · exact storeInvBound_mono s t n1 ih hle
    · exact upsertIncrement_preserves_inv s (pyStrip uid) n1 t ih hle

theorem tzErr_ne_uidErr (t : String) :
    (⟨400, tzErrDetail t⟩ : HttpError) ≠ uidRequiredError := by
  intro h
  have hI : (tzErrDetail t).data.head? = some 'I' := rfl
  have hX : (tzErrDetail t).data.head? = some 'X' := by
    have hd : tzErrDetail t = uidRequiredError.detail := congrArg HttpError.detail h
    rw [hd]
    rfl
  exact absurd (hI.symm.trans hX) (by decide)

theorem strContains_tzErrDetail_input (t : String) :
    strContains (tzErrDetail t) t = true := by
  show containsSub t.data (tzErrDetail t).data = true
  rw [show (tzErrDetail t).data =
      ("Invalid timezone: \x27".data ++ t.data) ++
        "\x27. Use IANA format (e.g., America/New_York, Europe/London).".data from rfl,
    List.append_assoc]
  exact containsSub_sandwich t.data _ _

theorem strContains_tzErrDetail_phrase (t : String) :
    strContains (tzErrDetail t) "Invalid timezone" = true := by
  show containsSub "Invalid timezone".data (tzErrDetail t).data = true
  rw [show (tzErrDetail t).data =
      "Invalid timezone".data ++
        (": \x27".data ++ t.data ++
          "\x27. Use IANA format (e.g., America/New_York, Europe/London).".data) from by
        rw [show (tzErrDetail t).data =
            ("Invalid timezone: \x27".data ++ t.data) ++
              "\x27. Use IANA format (e.g., America/New_York, Europe/London).".data from rfl]
        simp [List.append_assoc]]
  exact containsSub_of_isPreL _ _ (isPreL_append _ _)

theorem strContains_tzErrDetail_iana (t : String) :
    strContains (tzErrDetail t) "IANA format" = true := by
  show containsSub "IANA format".data (tzErrDetail t).data = true
  rw [show (tzErrDetail t).data =
      ("Invalid timezone: \x27".data ++ t.data) ++
        "\x27. Use IANA format (e.g., America/New_York, Europe/London).".data from rfl]
  exact containsSub_append_left _ _ _ (by decide)

theorem runSeqStore_viewsOf (tzdb : String → Option Zone) (times : Nat → Nat × Nat)
    (uid : String) (db0 : Store) (z : Zone) (hu : pyStrip uid ≠ "")
    (hz : tzdb "UTC" = some z) (n : Nat) :
    viewsOf (runSeqStore tzdb times uid db0 n) (pyStrip uid) =
      viewsOf db0 (pyStrip uid) + n := by
  induction n with
  | zero => rfl
  | succ n ih =>
    have hz2 : tzdb (if ("UTC" : String) = "" then "UTC" else "UTC") = some z := by
      rw [if_neg (by decide)]
      exact hz
    rw [runSeqStore, ping_valid tzdb (runSeqStore tzdb times uid db0 n)
      (times n).1 (times n).2 uid "UTC" z hu hz2]
    show viewsOf (upsertIncrement (runSeqStore tzdb times uid db0 n) (pyStrip uid)
      (times n).1) (pyStrip uid) = viewsOf db0 (pyStrip uid) + (n + 1)
    rw [viewsOf_upsertIncrement_self, ih]
    omega

/-- **C1**: for every valid (non-empty after stripping) user id with no
pre-existing record, the `(n+1)`-st sequential call to the ping handler
returns views = n + 1; in particular the first call returns views = 1 and
the Nth sequential call returns views = N. -/
theorem C1_sequential_views (tzdb : String → Option Zone) (times : Nat → Nat × Nat)
    (uid : String) (db0 : Store) (z : Zone) (hu : pyStrip uid ≠ "")
    (hz : tzdb "UTC" = some z) (h0 : storeFind db0 (pyStrip uid) = none) (n : Nat) :
    ∃ r : PingResponse,
      seqResponse tzdb times uid db0 n = Except.ok r ∧ r.views = n + 1 := by
  have hz2 : tzdb (if ("UTC" : String) = "" then "UTC" else "UTC") = some z := by
    rw [if_neg (by decide)]
    exact hz
  unfold seqResponse
  rw [ping_valid tzdb (runSeqStore tzdb times uid db0 n)
    (times n).1 (times n).2 uid "UTC" z hu hz2]
  refine ⟨_, rfl, ?_⟩
  show viewsOf (runSeqStore tzdb times uid db0 n) (pyStrip uid) + 1 = n + 1
  rw [runSeqStore_viewsOf tzdb times uid db0 z hu hz n]
  simp [viewsOf, h0]

/-- Witness for C1: three sequential calls for "alice" on a fresh store,
the third returning views = 3. -/
theorem C1_sequential_views_witness :
    ∃ r : PingResponse,
      seqResponse ianaDb (fun _ => (0, 0)) "alice" [] 2 = Except.ok r ∧
        r.views = 3 :=
  C1_sequential_views ianaDb (fun _ => (0, 0)) "alice" [] utcZone
    (by decide) rfl rfl 2

/-- **C2** (refuted on the code): interleaving two concurrent requests for
the same fresh id as upsert₀, upsert₁, select₀, select₁ is a valid
concurrent execution (each request runs its atomic upsert-commit before
its separate SELECT, as the handler does), yet both callers are returned
views = 2: the returned values are not the claimed gap- and
duplicate-free set C+1..C+K = 1, 2 — although the final stored count 2
is correct (the upsert itself loses no update). -/
theorem C2_concurrent_returns_race :
    validSched 2 [Act.up 0, Act.up 1, Act.sel 0, Act.sel 1] ∧
    (execSched "alice" 100 [] [Act.up 0, Act.up 1, Act.sel 0, Act.sel 1]).results =
      [(0, some 2), (1, some 2)] ∧
    ¬ (((execSched "alice" 100 [] [Act.up 0, Act.up 1, Act.sel 0, Act.sel 1]).results.map
        Prod.snd).Perm [some 1, some 2]) ∧
    (execSched "alice" 100 [] [Act.up 0, Act.up 1, Act.sel 0, Act.sel 1]).db =
      [("alice", ⟨2, 100, 100⟩)] :=
  ⟨by decide, by decide, by decide, by decide⟩

/-- **C3** (counterexample): a whitespace-only `X-Timezone` of a single
space is not defaulted to UTC; the request fails with a 400 invalid
timezone error instead of succeeding. -/
theorem C3_whitespace_tz_counterexample :
    (ping ianaDb true true [] 0 0 "alice" " ").fst =
      Except.error ⟨400, tzErrDetail " "⟩ ∧
    ∀ r : PingResponse, (ping ianaDb true true [] 0 0 "alice" " ").fst ≠ Except.ok r := by
  refine ⟨rfl, ?_⟩
  intro r h
  rw [show (ping ianaDb true true [] 0 0 "alice" " ").fst =
      Except.error ⟨400, tzErrDetail " "⟩ from rfl] at h
  exact Except.noConfusion h

/-- **C3** (amended): an empty `X-Timezone` is treated exactly as `"UTC"`
and the request succeeds; a whitespace-only but non-empty value is not
defaulted — since whitespace-only strings are not IANA names, such a
request fails with the 400 invalid-timezone error. -/
theorem C3_empty_tz_defaults_amended (tzdb : String → Option Zone) (db : Store)
    (n1 n2 : Nat) (uid w : String) (z : Zone)
    (hu : pyStrip uid ≠ "") (hz : tzdb "UTC" = some z) :
    (ping tzdb true true db n1 n2 uid "" = ping tzdb true true db n1 n2 uid "UTC" ∧
      ∃ r, (ping tzdb true true db n1 n2 uid "").fst = Except.ok r) ∧
    (w ≠ "" → (∀ c ∈ w.data, isPyWs c = true) → tzdb w = none →
      ping tzdb true true db n1 n2 uid w = (Except.error ⟨400, tzErrDetail w⟩, db)) := by
  have hz1 : tzdb (if ("" : String) = "" then "UTC" else "") = some z := by
    rw [if_pos rfl]
    exact hz
  have hz2 : tzdb (if ("UTC" : String) = "" then "UTC" else "UTC") = some z := by
    rw [if_neg (by decide)]
    exact hz
  refine ⟨⟨?_, ?_⟩, ?_⟩
  · rw [ping_valid tzdb db n1 n2 uid "" z hu hz1,
      ping_valid tzdb db n1 n2 uid "UTC" z hu hz2]
  · rw [ping_valid tzdb db n1 n2 uid "" z hu hz1]
    exact ⟨_, rfl⟩
  · intro hw hall hnone
    have hz3 : tzdb (if w = "" then "UTC" else w) = none := by
      rw [if_neg hw]
      exact hnone
    rw [ping_bad_tz tzdb true true db n1 n2 uid w hu hz3, if_neg hw]

/-- Witness for the amended C3 at a concrete store and inputs. -/
theorem C3_empty_tz_defaults_amended_witness :
    ((ping ianaDb true true [] 0 0 "alice" "" = ping ianaDb true true [] 0 0 "alice" "UTC") ∧
      ∃ r, (ping ianaDb true true [] 0 0 "alice" "").fst = Except.ok r) ∧
    (" " ≠ "" → (∀ c ∈ (" " : String).data, isPyWs c = true) → ianaDb " " = none →
      ping ianaDb true true [] 0 0 "alice" " " =
        (Except.error ⟨400, tzErrDetail " "⟩, [])) :=
  C3_empty_tz_defaults_amended ianaDb [] 0 0 "alice" " " utcZone (by decide) rfl

/-- **C4** (counterexample): a request with the `X-User-Id` header absent
is rejected by framework validation with status 422 — not with a 400
client error as the claim states. -/
theorem C4_absent_uid_counterexample :
    (route ianaDb true true [] 0 0 none (some "UTC")).fst =
      Except.error ⟨422, "Field required"⟩ ∧
    ∀ d : String, (route ianaDb true true [] 0 0 none (some "UTC")).fst ≠
      Except.error ⟨400, d⟩ := by
  refine ⟨rfl, ?_⟩
  intro d h
  rw [show (route ianaDb true true [] 0 0 none (some "UTC")).fst =
      Except.error ⟨422, "Field required"⟩ from rfl] at h
  injection h with h2
  have h3 := congrArg HttpError.status h2
  simp at h3

/-- **C4** (amended): an empty or whitespace-only `X-User-Id` fails with
the 400 error whose detail contains "required"; an absent header fails
with the framework's 422 instead; and every user id containing a
non-whitespace character passes the user-id check (the handler never
returns the missing-user-id error for it). -/
theorem C4_uid_validation_amended (tzdb : String → Option Zone) (ok1 ok2 : Bool)
    (db : Store) (n1 n2 : Nat) (uid tzh : String) :
    ((∀ c ∈ uid.data, isPyWs c = true) →
      (ping tzdb ok1 ok2 db n1 n2 uid tzh).fst = Except.error uidRequiredError ∧
      uidRequiredError.status = 400 ∧
      strContains uidRequiredError.detail "required" = true) ∧
    ((∃ c ∈ uid.data, ¬ isPyWs c = true) →
      (ping tzdb ok1 ok2 db n1 n2 uid tzh).fst ≠ Except.error uidRequiredError) ∧
    (∀ tzh2, (route tzdb ok1 ok2 db n1 n2 none tzh2).fst =
      Except.error ⟨422, "Field required"⟩) := by
  refine ⟨?_, ?_, fun _ => rfl⟩
  · intro hall
    have hs : pyStrip uid = "" := (pyStrip_eq_empty_iff uid).mpr hall
    rw [ping_uid_missing tzdb ok1 ok2 db n1 n2 uid tzh hs]
    exact ⟨rfl, rfl, by decide⟩
  · intro hex
    have hu : pyStrip uid ≠ "" := pyStrip_ne_empty uid hex
    cases hz : tzdb (if tzh = "" then "UTC" else tzh) with
    | none =>
      rw [ping_bad_tz tzdb ok1 ok2 db n1 n2 uid tzh hu hz]
      intro h
      injection h with h2
      exact tzErr_ne_uidErr _ h2
    | some z =>
      cases ok1 with
      | false =>
        rw [ping_exec_down tzdb ok2 db n1 n2 uid tzh z hu hz]
        intro h
        injection h with h2
        exact absurd (congrArg HttpError.status h2) (by decide)
      | true =>
        cases ok2 with
        | false =>
          rw [ping_select_down tzdb db n1 n2 uid tzh z hu hz]
          intro h
          injection h with h2
          exact absurd (congrArg HttpError.status h2) (by decide)
        | true =>
          rw [ping_valid tzdb db n1 n2 uid tzh z hu hz]
          intro h
          exact Except.noConfusion h

/-- Witness for the amended C4: a user id that is a single no-break space
(Python whitespace) is rejected with the 400 "required" error, and a
normal id passes the check. -/
theorem C4_uid_validation_amended_witness :
    (ping ianaDb true true [] 0 0 "\u00A0" "UTC").fst =
      Except.error uidRequiredError ∧
    uidRequiredError.status = 400 ∧
    strContains uidRequiredError.detail "required" = true ∧
    (ping ianaDb true true [] 0 0 "alice" "UTC").fst ≠ Except.error uidRequiredError :=
  have h1 := (C4_uid_validation_amended ianaDb true true [] 0 0 "\u00A0" "UTC").1
    (by decide)
  have h2 := (C4_uid_validation_amended ianaDb true true [] 0 0 "alice" "UTC").2.1
    ⟨'a', by decide, by decide⟩
  ⟨h1.1, h1.2.1, h1.2.2, h2⟩

/-- **C5**: a non-empty timezone string not in the IANA database is
rejected with a 400 whose detail contains the literal input, the phrase
"Invalid timezone", and "IANA format"; every name that is in the database
passes validation (with a valid user id and working store the request
succeeds). -/
theorem C5_timezone_validation (tzdb : String → Option Zone) (ok1 ok2 : Bool)
    (db : Store) (n1 n2 : Nat) (uid tzName : String) (hu : pyStrip uid ≠ "") :
    (tzName ≠ "" → tzdb tzName = none →
      (ping tzdb ok1 ok2 db n1 n2 uid tzName).fst =
        Except.error ⟨400, tzErrDetail tzName⟩ ∧
      strContains (tzErrDetail tzName) tzName = true ∧
      strContains (tzErrDetail tzName) "Invalid timezone" = true ∧
      strContains (tzErrDetail tzName) "IANA format" = true) ∧
    (∀ z : Zone, tzdb tzName = some z → tzName ≠ "" → ok1 = true → ok2 = true →
      ∃ r, (ping tzdb ok1 ok2 db n1 n2 uid tzName).fst = Except.ok r) := by
  constructor
  · intro hne hnone
    have hz : tzdb (if tzName = "" then "UTC" else tzName) = none := by
      rw [if_neg hne]
      exact hnone
    rw [ping_bad_tz tzdb ok1 ok2 db n1 n2 uid tzName hu hz, if_neg hne]
    exact ⟨rfl, strContains_tzErrDetail_input tzName,
      strContains_tzErrDetail_phrase tzName, strContains_tzErrDetail_iana tzName⟩
  · intro z hsome hne hok1 hok2
    subst hok1
    subst hok2
    have hz : tzdb (if tzName = "" then "UTC" else tzName) = some z := by
      rw [if_neg hne]
      exact hsome
    rw [ping_valid tzdb db n1 n2 uid tzName z hu hz]
    exact ⟨_, rfl⟩

/-- Witness for C5: the unknown name "NotATimezone" is rejected with the
full detail message, and the database name "Asia/Tokyo" is accepted. -/
theorem C5_timezone_validation_witness :
    ((ping ianaDb true true [] 0 0 "alice" "NotATimezone").fst =
        Except.error ⟨400, tzErrDetail "NotATimezone"⟩ ∧
      strContains (tzErrDetail "NotATimezone") "NotATimezone" = true ∧
      strContains (tzErrDetail "NotATimezone") "Invalid timezone" = true ∧
      strContains (tzErrDetail "NotATimezone") "IANA format" = true) ∧
    ∃ r, (ping ianaDb true true [] 0 0 "bob" "Asia/Tokyo").fst = Except.ok r :=
  ⟨(C5_timezone_validation ianaDb true true [] 0 0 "alice" "NotATimezone"
      (by decide)).1 (by decide) rfl,
    (C5_timezone_validation ianaDb true true [] 0 0 "bob" "Asia/Tokyo"
      (by decide)).2 tokyoZone rfl (by decide) rfl rfl⟩

/-- **C6** (counterexample): when the separate post-commit `SELECT` of the
row fails, the request fails with a 500 while the increment is already
committed — a failed request with a visible mutation, so "either the
increment commits and a response is formed, or it fails before any
visible mutation" does not hold of the code. -/
theorem C6_select_failure_counterexample :
    (ping ianaDb true false [] 0 0 "alice" "UTC").fst =
      Except.error ⟨500, "Internal Server Error"⟩ ∧
    (ping ianaDb true false [] 0 0 "alice" "UTC").snd =
      [("alice", ⟨1, 0, 0⟩)] ∧
    (ping ianaDb true false [] 0 0 "alice" "UTC").snd ≠ [] :=
  ⟨rfl, rfl, by decide⟩

/-- **C6** (amended): every failure up to and including the upsert
`execute`/`commit` — user-id validation, timezone validation, or a store
error on the write — leaves the store exactly as it was; the one failing
path with a visible mutation is the separate post-commit `SELECT`: if it
fails the request returns a 500 with the increment already committed (the
store then holds precisely the committed upsert, nothing partial). -/
theorem C6_error_mutation_amended (tzdb : String → Option Zone)
    (ok1 ok2 : Bool) (db : Store) (n1 n2 : Nat) (uid tzh : String) :
    (ok2 = true → ∀ e : HttpError,
      (ping tzdb ok1 ok2 db n1 n2 uid tzh).fst = Except.error e →
      (ping tzdb ok1 ok2 db n1 n2 uid tzh).snd = db) ∧
    (∀ e : HttpError,
      (ping tzdb ok1 ok2 db n1 n2 uid tzh).fst = Except.error e →
      (ping tzdb ok1 ok2 db n1 n2 uid tzh).snd = db ∨
      (ok1 = true ∧ ok2 = false ∧
        (ping tzdb ok1 ok2 db n1 n2 uid tzh).snd =
          upsertIncrement db (pyStrip uid) n1)) := by
  by_cases h1 : pyStrip uid = ""
  · rw [ping_uid_missing tzdb ok1 ok2 db n1 n2 uid tzh h1]
    exact ⟨fun _ _ _ => rfl, fun _ _ => Or.inl rfl⟩
  · cases hz : tzdb (if tzh = "" then "UTC" else tzh) with
    | none =>
      rw [ping_bad_tz tzdb ok1 ok2 db n1 n2 uid tzh h1 hz]
      exact ⟨fun _ _ _ => rfl, fun _ _ => Or.inl rfl⟩
    | some z =>
      cases ok1 with
      | false =>
        rw [ping_exec_down tzdb ok2 db n1 n2 uid tzh z h1 hz]
        exact ⟨fun _ _ _ => rfl, fun _ _ => Or.inl rfl⟩
      | true =>
        cases ok2 with
        | false =>
          rw [ping_select_down tzdb db n1 n2 uid tzh z h1 hz]
          exact ⟨fun hk => Bool.noConfusion hk, fun _ _ => Or.inr ⟨rfl, rfl, rfl⟩⟩
        | true =>
          rw [ping_valid tzdb db n1 n2 uid tzh z h1 hz]
          exact ⟨fun _ e he => Except.noConfusion he,
            fun e he => Except.noConfusion he⟩

/-- Witness for the amended C6: with a working select, a failing request
(empty user id) leaves the empty store empty; with the select failing,
the error response coexists with exactly the committed increment. -/
theorem C6_error_mutation_amended_witness :
    (ping ianaDb true true [] 0 0 "" "UTC").snd = [] ∧
    ((ping ianaDb true false [] 0 0 "bob" "UTC").snd = [] ∨
      (true = true ∧ false = false ∧
        (ping ianaDb true false [] 0 0 "bob" "UTC").snd =
          upsertIncrement [] (pyStrip "bob") 0)) :=
  ⟨(C6_error_mutation_amended ianaDb true true [] 0 0 "" "UTC").1 rfl
      uidRequiredError rfl,
    (C6_error_mutation_amended ianaDb true false [] 0 0 "bob" "UTC").2
      ⟨500, "Internal Server Error"⟩ rfl⟩

/-- **C7**: in every store state reachable under a forward-moving clock,
every record satisfies created_at ≤ updated_at, and any further ping
operation (insert or update) preserves the invariant. -/
theorem C7_updated_at_ge_created_at (tzdb : String → Option Zone) (s : Store)
    (t : Nat) (h : Reachable tzdb s t) :
    (∀ p ∈ s, p.2.created_at ≤ p.2.updated_at) ∧
    ∀ (ok1 ok2 : Bool) (nowUtc nowResp : Nat) (uid tzh : String), t ≤ nowUtc →
      ∀ p ∈ (ping tzdb ok1 ok2 s nowUtc nowResp uid tzh).snd,
        p.2.created_at ≤ p.2.updated_at := by
  refine ⟨fun p hp => (reachable_inv tzdb s t h p hp).1, ?_⟩
  intro ok1 ok2 n1 n2 uid tzh hle p hp
  exact (reachable_inv tzdb _ n1
    (Reachable.step s t ok1 ok2 n1 n2 uid tzh h hle) p hp).1

/-- Witness for C7 from the initial reachable state. -/
theorem C7_updated_at_ge_created_at_witness :
    (∀ p ∈ ([] : Store), p.2.created_at ≤ p.2.updated_at) ∧
    ∀ (ok1 ok2 : Bool) (nowUtc nowResp : Nat) (uid tzh : String), 0 ≤ nowUtc →
      ∀ p ∈ (ping ianaDb ok1 ok2 [] nowUtc nowResp uid tzh).snd,
        p.2.created_at ≤ p.2.updated_at :=
  C7_updated_at_ge_created_at ianaDb [] 0 Reachable.init

/-- **C8**: counters for distinct ids are independent — a ping request for
id `a` leaves the record of every other stored key `b` (its views,
created_at and updated_at) untouched; the record a request addresses is
keyed by its stripped id. -/
theorem C8_counters_independent (tzdb : String → Option Zone) (ok1 ok2 : Bool)
    (db : Store) (n1 n2 : Nat) (a tzh b : String) (h : b ≠ pyStrip a) :
    storeFind (ping tzdb ok1 ok2 db n1 n2 a tzh).snd b = storeFind db b := by
  rcases ping_snd_cases tzdb ok1 ok2 db n1 n2 a tzh with he | he <;> rw [he]
  exact storeFind_upsertIncrement_ne db (pyStrip a) b n1 h

/-- Witness for C8: pinging "alice" does not create or change a record
for "bob". -/
theorem C8_counters_independent_witness :
    storeFind (ping ianaDb true true [] 0 0 "alice" "UTC").snd "bob" =
      storeFind [] "bob" :=
  C8_counters_independent ianaDb true true [] 0 0 "alice" "UTC" "bob" (by decide)

/-- **C9**: the formatter renders the fixed instant 2024-06-15T14:30:45Z
in UTC as exactly "2024-06-15 14:30:45 UTC", and re-parsing the displayed
string reproduces the instant's wall-clock fields in that zone. -/
theorem C9_format_fixed_instant_roundtrip :
    formatTime 1718461845 utcZone = "2024-06-15 14:30:45 UTC" ∧
    parseWall (formatTime 1718461845 utcZone) = some (2024, 6, 15, 14, 30, 45) ∧
    wallClock 1718461845 utcZone = (2024, 6, 15, 14, 30, 45) :=
  ⟨rfl, rfl, rfl⟩

/-- **C10**: user ids differing only in surrounding whitespace address the
same counter record: a request with id `s` behaves exactly as a request
with the stripped id, and (when the request goes through) mutates the
store precisely at the key `pyStrip s`. -/
theorem C10_whitespace_ids_share_record (tzdb : String → Option Zone)
    (ok1 ok2 : Bool) (db : Store) (n1 n2 : Nat) (s tzh : String)
    (h : ∃ c ∈ s.data, ¬ isPyWs c = true) :
    ping tzdb ok1 ok2 db n1 n2 s tzh = ping tzdb ok1 ok2 db n1 n2 (pyStrip s) tzh ∧
    (∀ z : Zone, tzdb (if tzh = "" then "UTC" else tzh) = some z → ok1 = true →
      (ping tzdb ok1 ok2 db n1 n2 s tzh).snd = upsertIncrement db (pyStrip s) n1) := by
  obtain ⟨c, hc, hcw⟩ := h
  have hu : pyStrip s ≠ "" := pyStrip_ne_empty s ⟨c, hc, hcw⟩
  have hs0 : s ≠ "" := ne_empty_of_mem s c hc
  constructor
  · simp [ping, pyStrip_idem, hu, hs0]
  · intro z hz hok1
    subst hok1
    cases ok2 with
    | false => rw [ping_select_down tzdb db n1 n2 s tzh z hu hz]
    | true => rw [ping_valid tzdb db n1 n2 s tzh z hu hz]

/-- Witness for C10: "  alice " and its stripped form "alice" produce the
same behaviour and write the same record. -/
theorem C10_whitespace_ids_share_record_witness :
    (ping ianaDb true true [] 5 6 "  alice " "UTC" =
      ping ianaDb true true [] 5 6 (pyStrip "  alice ") "UTC") ∧
    (∀ z : Zone, ianaDb (if ("UTC" : String) = "" then "UTC" else "UTC") =
        some z → true = true →
      (ping ianaDb true true [] 5 6 "  alice " "UTC").snd =
        upsertIncrement [] (pyStrip "  alice ") 5) :=
  C10_whitespace_ids_share_record ianaDb true true [] 5 6 "  alice " "UTC"
    ⟨'a', by decide, by decide⟩
